import Mathlib

/-!
Verification of the browserd daemon (apps/browserd) against its
natural-language specification.

The development shallowly embeds the Rust sources:
  - apps/browserd/src/engine/stub.rs  (the deterministic reference engine)
  - apps/browserd/src/main.rs         (dispatcher, URL policy, stream options)

Rust strings are modelled as lists of characters (abbrev Str), u64 / u32 /
i32 machine integers as Nat / Int with explicit saturation or wrapping where
the source uses saturating or `as` casts, and fallible operations as Except.
Mutable engine methods are translated into explicit state passing: a method
taking &mut self becomes a function returning the (result, new state) pair,
threading the state exactly along the source's control flow, so that an
early error return carries whatever state the source had mutated so far.
Wall-clock timestamp fields (prost Timestamp, produced by timestamp_now)
are omitted from the embedded records: they are real time and carry no
specified behaviour.
-/

/-- Rust String / str modelled as a list of characters. -/
abbrev Str := List Char

/-- Whitespace test used by the model of str::trim.  The source relies on
Rust's Unicode trim; the entries and hosts the spec reasons about are ASCII,
where the two notions agree. -/
def isWsChar (c : Char) : Bool :=
  c = ' ' || c = '\t' || c = '\n' || c = '\r'

/-- Model of str::trim: drop whitespace from both ends. -/
def trimStr (s : Str) : Str :=
  ((s.dropWhile isWsChar).reverse.dropWhile isWsChar).reverse

/-- Model of char::to_ascii_lowercase. -/
def asciiLower (c : Char) : Char :=
  if 65 ≤ c.toNat ∧ c.toNat ≤ 90 then Char.ofNat (c.toNat + 32) else c

/-- Model of str::to_ascii_lowercase. -/
def lowerStr (s : Str) : Str := s.map asciiLower

/-- Decimal rendering of a Nat, as used by format! on unsigned integers. -/
def natToStr (n : Nat) : Str := (Nat.repr n).data

/-- Decimal rendering of an Int, as used by format! on signed integers. -/
def intToStr (n : Int) : Str :=
  if n < 0 then '-' :: natToStr n.natAbs else natToStr n.toNat

/-- Number of UTF-8 bytes of a string: Rust's str::as_bytes().len(). -/
def utf8Len (s : Str) : Nat := (s.map Char.utf8Size).sum

/-- Value of a string of decimal digits. -/
def digitsVal (s : Str) : Nat :=
  s.foldl (fun acc c => acc * 10 + (c.toNat - 48)) 0

/-- Model of char::is_ascii_digit. -/
def isAsciiDigit (c : Char) : Bool := 48 ≤ c.toNat && c.toNat ≤ 57

/-- Model of str::parse::<u16> on a digits-only string: empty input and
values above 65535 fail, exactly as in Rust. -/
def parseU16 (s : Str) : Option Nat :=
  if s = [] then none
  else if digitsVal s ≤ 65535 then some (digitsVal s) else none

/-- Model of str::rsplit_once(c): split at the last occurrence of c. -/
def rsplitOnce (c : Char) : Str → Option (Str × Str)
  | [] => none
  | a :: rest =>
    match rsplitOnce c rest with
    | some (pre, post) => some (a :: pre, post)
    | none => if a = c then some ([], rest) else none

/-- Split at the first occurrence of c (used by the URL-parser model to
separate the scheme). -/
def splitOnceChar (c : Char) : Str → Option (Str × Str)
  | [] => none
  | a :: rest =>
    if a = c then some ([], rest)
    else
      match splitOnceChar c rest with
      | some (pre, post) => some (a :: pre, post)
      | none => none

/-- Model of str::strip_prefix("*.") as used on allowlist entries. -/
def stripStar : Str → Option Str
  | c1 :: c2 :: rest => if c1 = '*' ∧ c2 = '.' then some rest else none
  | _ => none

/-- Model of str::contains(needle) for a substring needle. -/
def hasSubstr (needle : Str) : Str → Bool
  | [] => needle.isEmpty
  | c :: rest => needle.isPrefixOf (c :: rest) || hasSubstr needle rest

/-!
Model of the parsed-URL values the daemon consumes from the external url
crate (url::Url).  Only the accessors the source calls are represented:
scheme(), host_str(), port() (explicit port, None when it is the scheme's
known default) and port_or_known_default().  The parser model covers the
scheme://host:port shapes the allowlist code feeds it; the claims about
validate_url are stated over the parsed value itself.
-/

/-- Parsed URL as consumed by the daemon: scheme (lowercased by the url
crate), optional host (lowercased), and the explicit port, stored as None
when it equals the scheme's known default, matching url::Url::port(). -/
structure ParsedUrl where
  scheme : Str
  host : Option Str
  port : Option Nat
  deriving Repr, DecidableEq

/-- Known default ports of the url crate's special schemes. -/
def knownDefaultPort (scheme : Str) : Option Nat :=
  if scheme = "http".data then some 80
  else if scheme = "https".data then some 443
  else if scheme = "ws".data then some 80
  else if scheme = "wss".data then some 443
  else if scheme = "ftp".data then some 21
  else none

/-- Model of url::Url::port_or_known_default(). -/
def portOrKnownDefault (u : ParsedUrl) : Option Nat :=
  match u.port with
  | some p => some p
  | none => knownDefaultPort u.scheme

/-- Scheme characters allowed after the first (ASCII alphanumeric, +, -, .). -/
def schemeCharOk (c : Char) : Bool :=
  (97 ≤ c.toNat && c.toNat ≤ 122) || (65 ≤ c.toNat && c.toNat ≤ 90) ||
  (48 ≤ c.toNat && c.toNat ≤ 57) || c = '+' || c = '-' || c = '.'

/-- Characters terminating the authority component. -/
def authorityEndChar (c : Char) : Bool :=
  c = '/' || c = '?' || c = '#'

/-- Model of url::Url::parse restricted to the shapes browserd feeds it:
a scheme followed by either an authority (scheme://host[:port]) or an
opaque path (about:blank).  Hosts and schemes are lowercased, an explicit
port equal to the scheme's known default is normalized to None, an empty
host in an authority URL and a malformed port are parse errors; all of
this matches the url crate on those inputs. -/
def urlParse (s : Str) : Option ParsedUrl :=
  match splitOnceChar ':' s with
  | none => none
  | some (sch, rest) =>
    if sch = [] then none
    else if ¬ sch.all schemeCharOk then none
    else
      let scheme := lowerStr sch
      match rest with
      | '/' :: '/' :: rest2 =>
        let authority := rest2.takeWhile (fun c => !authorityEndChar c)
        match rsplitOnce ':' authority with
        | none =>
          if authority = [] then
            if (knownDefaultPort scheme).isSome then none
            else some ⟨scheme, none, none⟩
          else some ⟨scheme, some (lowerStr authority), none⟩
        | some (h, pstr) =>
          if h.contains ']' then
            if authority = [] then none
            else some ⟨scheme, some (lowerStr authority), none⟩
          else if h = [] then none
          else if pstr = [] then some ⟨scheme, some (lowerStr h), none⟩
          else if ¬ pstr.all isAsciiDigit then none
          else
            match parseU16 pstr with
            | none => none
            | some p =>
              some ⟨scheme, some (lowerStr h),
                    if knownDefaultPort scheme = some p then none else some p⟩
      | _ => some ⟨scheme, none, none⟩

/-!
URL / allowlist policy, from apps/browserd/src/main.rs (validate_url,
allowlist_allows, parse_allowlist_entry).  The same two allowlist helpers
are duplicated verbatim in engine/stub.rs for the clipboard read allowlist;
one embedding serves both.
-/

/-- Embedding of parse_allowlist_entry (main.rs): URL-shaped entries go
through the URL parser (falling through on failure), then host:port with a
numeric port and no bracket in the host, then a plain lowercased host. -/
def parse_allowlist_entry (entry : Str) : Str × Option Nat :=
  let viaUrl : Option (Str × Option Nat) :=
    if hasSubstr "://".data entry then
      match urlParse entry with
      | some u =>
        match u.host with
        | some h => some (lowerStr h, u.port)
        | none => none
      | none => none
    else none
  match viaUrl with
  | some r => r
  | none =>
    match rsplitOnce ':' entry with
    | some (h, pstr) =>
      if pstr.all isAsciiDigit ∧ ¬ h.contains ']' then
        match parseU16 pstr with
        | some p => (lowerStr h, some p)
        | none => (lowerStr entry, none)
      else (lowerStr entry, none)
    | none => (lowerStr entry, none)

/-- Loop body of allowlist_allows over the entry list, with the host
already lowercased. -/
def allowlistLoop (host : Str) (port : Option Nat) : List Str → Bool
  | [] => false
  | e :: rest =>
    let entry := trimStr e
    if entry = [] then allowlistLoop host port rest
    else
      match stripStar entry with
      | some suf =>
        let suffix := lowerStr suf
        if host = suffix ∨ ('.' :: suffix).isSuffixOf host then true
        else allowlistLoop host port rest
      | none =>
        let he := parse_allowlist_entry entry
        if he.1 = [] ∨ he.1 ≠ host then allowlistLoop host port rest
        else
          match he.2 with
          | some ep =>
            match port with
            | some p => if p = ep then true else allowlistLoop host port rest
            | none => allowlistLoop host port rest
          | none => true

/-- Embedding of allowlist_allows (main.rs). -/
def allowlist_allows (host : Str) (port : Option Nat) (allowlist : List Str) : Bool :=
  allowlistLoop (lowerStr host) port allowlist

/-- Scheme and allowlist checks of validate_url after URL parsing
succeeded (main.rs validate_url, body after Url::parse). -/
def validateUrlParsed (parsed : ParsedUrl) (allowlist : List Str) : Except Str Unit :=
  let scheme := lowerStr parsed.scheme
  if scheme = "file".data ∨ scheme = "data".data ∨ scheme = "javascript".data then
    .error ("blocked scheme: ".data ++ scheme)
  else if scheme = "about".data then .ok ()
  else if scheme ≠ "http".data ∧ scheme ≠ "https".data then
    .error ("unsupported scheme: ".data ++ scheme)
  else
    match parsed.host with
    | none => .error "missing host".data
    | some host =>
      if allowlist = [] then .ok ()
      else
        if allowlist_allows host (portOrKnownDefault parsed) allowlist then .ok ()
        else .error "host not in allowlist".data

/-- Embedding of validate_url (main.rs). -/
def validate_url (url : Str) (allowlist : List Str) : Except Str Unit :=
  match urlParse url with
  | none => .error "invalid url".data
  | some parsed => validateUrlParsed parsed allowlist

/-!
Protocol-buffer message and enum models.  The generating file
pkg/browser/adapters/servo/proto/browserd.proto is repository code outside
src/, so these shapes are modelled from the spec (section 3, DATA MODEL);
prost maps message-typed fields to Option and scalar fields to plain
values, which is mirrored here.  Enum-typed wire fields are decoded in the
source with try_from(..).unwrap_or(Unspecified); the model carries the
decoded enum directly, with the Unspecified constructor standing for both
the zero value and every unknown value.
-/

/-- Modelled from the spec: a viewport pixel point (ActionTarget.point),
i32 coordinates. -/
structure PbPoint where
  x : Int
  y : Int
  deriving Repr, DecidableEq

/-- Modelled from the spec: rectangle with i32 fields (HitTestMap bounds). -/
structure PbRect where
  x : Int
  y : Int
  width : Int
  height : Int
  deriving Repr, DecidableEq

/-- Modelled from the spec: one hit-test region. -/
structure HitRegion where
  node_id : Nat
  bounds : Option PbRect
  deriving Repr, DecidableEq

/-- Modelled from the spec: HitTestMap = width, height, regions. -/
structure HitTestMap where
  width : Nat
  height : Nat
  regions : List HitRegion
  deriving Repr, DecidableEq

/-- Modelled from the spec: clipboard modes. -/
inductive ClipboardMode where
  | unspecified
  | virtualMode
  | hostMode
  deriving Repr, DecidableEq

/-- Modelled from the spec: SessionConfig.clipboard block. -/
structure ClipboardPolicy where
  mode : ClipboardMode
  allow_read : Bool
  allow_write : Bool
  max_bytes : Nat
  read_allowlist : List Str
  deriving Repr, DecidableEq

/-- Modelled from the spec: SessionConfig.viewport (u32 dimensions). -/
structure PbViewport where
  width : Nat
  height : Nat
  deriving Repr, DecidableEq

/-- Modelled from the spec: SessionConfig (the fields the stub engine and
dispatcher read). -/
structure SessionConfig where
  session_id : Str
  initial_url : Str
  viewport : Option PbViewport
  frame_rate : Nat
  network_allowlist : List Str
  clipboard : Option ClipboardPolicy
  deriving Repr, DecidableEq

/-- Modelled from the spec: action types. -/
inductive ActionType where
  | click
  | typeText
  | scroll
  | hover
  | key
  | focus
  | clipboardRead
  | clipboardWrite
  | unspecified
  deriving Repr, DecidableEq

/-- Modelled from the spec: scroll units. -/
inductive ScrollUnit where
  | unspecified
  | pixels
  | lines
  deriving Repr, DecidableEq

/-- Modelled from the spec: Action.scroll delta (i32 x, y). -/
structure ScrollDelta where
  x : Int
  y : Int
  unit : ScrollUnit
  deriving Repr, DecidableEq

/-- Modelled from the spec: Action.target (node_id or point). -/
structure ActionTarget where
  node_id : Nat
  point : Option PbPoint
  deriving Repr, DecidableEq

/-- Modelled from the spec: Action.  The ty field carries the decoded
ActionType (source: pb::ActionType::try_from(action.r#type)
.unwrap_or(Unspecified)). -/
structure PbAction where
  ty : ActionType
  expected_state_version : Nat
  target : Option ActionTarget
  text : Str
  key : Str
  scroll : Option ScrollDelta
  deriving Repr, DecidableEq

/-- Engine error, from engine/mod.rs: a short static code and a message. -/
structure EngineError where
  code : String
  message : String
  deriving Repr, DecidableEq

/-- Modelled from the spec: frame metadata (pixel data and timestamp are
not modelled; the stub always sends empty PNG data). -/
structure PbFrame where
  state_version : Nat
  width : Nat
  height : Nat
  deriving Repr, DecidableEq

/-- Modelled from the spec: Observation (timestamp omitted; snapshot byte
fields carried as strings, which is what the stub writes into them). -/
structure Observation where
  state_version : Nat
  url : Str
  title : Str
  frame : Option PbFrame
  dom_snapshot : Str
  accessibility_tree : Str
  hit_test : Option HitTestMap
  deriving Repr, DecidableEq

/-- Model of the prost_types::Struct built by clipboard_metadata in
stub.rs: fields bytes, mode, source and optionally text. -/
structure ClipboardMeta where
  text : Option Str
  bytes : Nat
  mode : Str
  source : Str
  deriving Repr, DecidableEq

/-- Modelled from the spec: one effect of an action. -/
structure Effect where
  kind : Str
  summary : Str
  metadata : Option ClipboardMeta
  deriving Repr, DecidableEq

/-- Modelled from the spec: ActionResult. -/
structure ActionResult where
  state_version : Nat
  observation : Option Observation
  effects : List Effect
  deriving Repr, DecidableEq

/-- Modelled from the spec: ObserveOptions. -/
structure ObserveOptions where
  include_frame : Bool
  include_dom_snapshot : Bool
  include_accessibility : Bool
  include_hit_test : Bool
  deriving Repr, DecidableEq

/-- Modelled from the spec: stream event types. -/
inductive StreamEventType where
  | unspecified
  | frame
  | domDiff
  | accessibilityDiff
  | hitTest
  deriving Repr, DecidableEq

/-- Modelled from the spec: StreamEvent (timestamp omitted). -/
structure StreamEvent where
  ty : StreamEventType
  state_version : Nat
  frame : Option PbFrame
  dom_diff : Str
  accessibility_diff : Str
  hit_test : Option HitTestMap
  deriving Repr, DecidableEq

/-- Modelled from the spec: StreamSubscribe options. -/
structure StreamOptions where
  include_frames : Bool
  include_dom_diffs : Bool
  include_accessibility_diffs : Bool
  include_hit_test : Bool
  target_fps : Nat
  deriving Repr, DecidableEq

/-- StreamSettings, from main.rs: normalized streaming configuration. -/
structure StreamSettings where
  include_frames : Bool
  include_dom_diffs : Bool
  include_accessibility_diffs : Bool
  include_hit_test : Bool
  target_fps : Nat
  deriving Repr, DecidableEq

/-!
Machine-integer helpers.  state_version is a u64 bumped with
saturating_add; scroll offsets are i32 accumulated with saturating_add;
u32 dimensions are cast to i32 rect fields with a plain as-cast, which
wraps.
-/

/-- Largest u64 value. -/
def U64_MAX : Nat := 2 ^ 64 - 1

/-- Model of u64::saturating_add(1). -/
def u64SatSucc (v : Nat) : Nat := min (v + 1) U64_MAX

/-- Model of i32::saturating_add. -/
def i32SatAdd (a b : Int) : Int :=
  max (-(2 ^ 31)) (min (a + b) (2 ^ 31 - 1))

/-- Model of the wrapping u32-to-i32 as-cast. -/
def u32ToI32 (n : Nat) : Int :=
  if n < 2 ^ 31 then (n : Int) else (n : Int) - 2 ^ 32

/-!
Reference engine, from apps/browserd/src/engine/stub.rs.
-/

/-- Node-id constant from stub.rs. -/
def ROOT_NODE_ID : Nat := 1

/-- Node-id constant from stub.rs. -/
def BUTTON_NODE_ID : Nat := 2

/-- Node-id constant from stub.rs. -/
def INPUT_NODE_ID : Nat := 3

/-- Default clipboard size limit from stub.rs (64 * 1024). -/
def DEFAULT_CLIPBOARD_MAX_BYTES : Nat := 64 * 1024

/-- Default viewport width from stub.rs. -/
def DEFAULT_VIEWPORT_WIDTH : Nat := 1280

/-- Default viewport height from stub.rs. -/
def DEFAULT_VIEWPORT_HEIGHT : Nat := 720

/-- Default frame rate shared by stub.rs and main.rs. -/
def DEFAULT_FRAME_RATE : Nat := 12

/-- State of the stub engine (struct StubEngine in stub.rs). -/
structure StubEngine where
  url : Str
  title : Str
  state_version : Nat
  viewport_width : Nat
  viewport_height : Nat
  frame_rate : Nat
  last_action : Str
  last_action_detail : Str
  last_text_len : Nat
  last_key : Str
  scroll_x : Int
  scroll_y : Int
  focused_node : Nat
  hovered_node : Nat
  clipboard_mode : ClipboardMode
  clipboard_allow_read : Bool
  clipboard_allow_write : Bool
  clipboard_max_bytes : Nat
  clipboard_read_allowlist : List Str
  clipboard_text : Str
  deriving Repr, DecidableEq

/-- Embedding of StubEngine::new. -/
def StubEngine.new (config : SessionConfig) : Except EngineError StubEngine :=
  if trimStr config.session_id = [] then
    .error ⟨"invalid_request", "session_id is required"⟩
  else
    let clip :=
      match config.clipboard with
      | none =>
        (ClipboardMode.virtualMode, false, true, DEFAULT_CLIPBOARD_MAX_BYTES,
         ([] : List Str))
      | some policy =>
        let m := if policy.mode ≠ ClipboardMode.unspecified then policy.mode
                 else ClipboardMode.virtualMode
        let mb := if policy.max_bytes > 0 then policy.max_bytes
                  else DEFAULT_CLIPBOARD_MAX_BYTES
        let ra := if policy.read_allowlist ≠ [] then policy.read_allowlist
                  else ([] : List Str)
        (m, policy.allow_read, policy.allow_write, mb, ra)
    let vw :=
      match config.viewport with
      | some v => if v.width > 0 then v.width else DEFAULT_VIEWPORT_WIDTH
      | none => DEFAULT_VIEWPORT_WIDTH
    let vh :=
      match config.viewport with
      | some v => if v.height > 0 then v.height else DEFAULT_VIEWPORT_HEIGHT
      | none => DEFAULT_VIEWPORT_HEIGHT
    let fr := if config.frame_rate > 0 then config.frame_rate else DEFAULT_FRAME_RATE
    let url := if config.initial_url ≠ [] then config.initial_url else "about:blank".data
    .ok
      { url := url
        title := "Stub Page".data
        state_version := 1
        viewport_width := vw
        viewport_height := vh
        frame_rate := fr
        last_action := "idle".data
        last_action_detail := "ready".data
        last_text_len := 0
        last_key := []
        scroll_x := 0
        scroll_y := 0
        focused_node := INPUT_NODE_ID
        hovered_node := 0
        clipboard_mode := clip.1
        clipboard_allow_read := clip.2.1
        clipboard_allow_write := clip.2.2.1
        clipboard_max_bytes := clip.2.2.2.1
        clipboard_read_allowlist := clip.2.2.2.2
        clipboard_text := [] }

/-- Embedding of StubEngine::bump_state (u64 saturating_add(1)). -/
def StubEngine.bump_state (s : StubEngine) : StubEngine :=
  { s with state_version := u64SatSucc s.state_version }

/-- Per-character form of escape_json_string.  The source performs the
five str::replace calls in sequence; since no replacement output contains
a character replaced by a later step, the sequence equals this single
character-wise expansion. -/
def escapeJsonChar (c : Char) : Str :=
  if c = '\\' then ['\\', '\\']
  else if c = '"' then ['\\', '"']
  else if c = '\n' then ['\\', 'n']
  else if c = '\r' then ['\\', 'r']
  else if c = '\t' then ['\\', 't']
  else [c]

/-- Embedding of escape_json_string (stub.rs and main.rs). -/
def escape_json_string (s : Str) : Str := (s.map escapeJsonChar).flatten

/-- Opening brace character, kept out of string literals. -/
def jLB : Str := [Char.ofNat 123]

/-- Closing brace character, kept out of string literals. -/
def jRB : Str := [Char.ofNat 125]

/-- Embedding of StubEngine::dom_snapshot_json. -/
def StubEngine.dom_snapshot_json (s : StubEngine) : Str :=
  jLB ++ "\"url\":\"".data ++ escape_json_string s.url
  ++ "\",\"title\":\"".data ++ escape_json_string s.title
  ++ "\",\"state_version\":".data ++ natToStr s.state_version
  ++ ",\"last_action\":\"".data ++ escape_json_string s.last_action
  ++ "\",\"last_action_detail\":\"".data ++ escape_json_string s.last_action_detail
  ++ "\",\"last_text_len\":".data ++ natToStr s.last_text_len
  ++ ",\"last_key\":\"".data ++ escape_json_string s.last_key
  ++ "\",\"scroll\":".data ++ jLB ++ "\"x\":".data ++ intToStr s.scroll_x
  ++ ",\"y\":".data ++ intToStr s.scroll_y ++ jRB
  ++ ",\"focused_node\":".data ++ natToStr s.focused_node
  ++ ",\"hovered_node\":".data ++ natToStr s.hovered_node ++ jRB

/-- Embedding of StubEngine::accessibility_snapshot_json. -/
def StubEngine.accessibility_snapshot_json (s : StubEngine) : Str :=
  jLB ++ "\"role\":\"document\",\"name\":\"".data ++ escape_json_string s.title
  ++ "\",\"focused_node\":".data ++ natToStr s.focused_node
  ++ ",\"hovered_node\":".data ++ natToStr s.hovered_node
  ++ ",\"children\":[".data
  ++ jLB ++ "\"role\":\"button\",\"name\":\"Stub Button\",\"node_id\":".data
  ++ natToStr BUTTON_NODE_ID ++ jRB ++ ",".data
  ++ jLB ++ "\"role\":\"textbox\",\"name\":\"Stub Input\",\"node_id\":".data
  ++ natToStr INPUT_NODE_ID ++ jRB ++ "]".data ++ jRB

/-- Embedding of StubEngine::dom_diff_json. -/
def StubEngine.dom_diff_json (s : StubEngine) : Str :=
  jLB ++ "\"type\":\"replace\",\"state_version\":".data ++ natToStr s.state_version
  ++ ",\"snapshot\":".data ++ s.dom_snapshot_json ++ jRB

/-- Embedding of StubEngine::accessibility_diff_json. -/
def StubEngine.accessibility_diff_json (s : StubEngine) : Str :=
  jLB ++ "\"type\":\"replace\",\"state_version\":".data ++ natToStr s.state_version
  ++ ",\"snapshot\":".data ++ s.accessibility_snapshot_json ++ jRB

/-- Embedding of StubEngine::build_frame (format and pixel payload fields
are constants in the source: PNG and empty). -/
def StubEngine.build_frame (s : StubEngine) : PbFrame :=
  { state_version := s.state_version
    width := s.viewport_width
    height := s.viewport_height }

/-- Embedding of StubEngine::viewport_rect; the u32 dimensions are
as-cast to the i32 rect fields. -/
def StubEngine.viewport_rect (s : StubEngine) : PbRect :=
  { x := 0
    y := 0
    width := u32ToI32 s.viewport_width
    height := u32ToI32 s.viewport_height }

/-- Embedding of StubEngine::control_regions.  All arithmetic is u32
(division truncates, saturating_sub floors at zero, the doubling of vh
wraps modulo 2^32) and the final fields are as-cast to i32. -/
def StubEngine.control_regions (s : StubEngine) : PbRect × PbRect :=
  let vw := max s.viewport_width 1
  let vh := max s.viewport_height 1
  let button_width := max (vw / 3) 1
  let button_height := max (vh / 6) 1
  let button_x := (vw - button_width) / 2
  let button_y := vh / 3 - button_height / 2
  let input_width := max (vw / 2) 1
  let input_height := max (vh / 8) 1
  let input_x := (vw - input_width) / 2
  let input_y := vh * 2 % 2 ^ 32 / 3 - input_height / 2
  ({ x := u32ToI32 button_x
     y := u32ToI32 button_y
     width := u32ToI32 button_width
     height := u32ToI32 button_height },
   { x := u32ToI32 input_x
     y := u32ToI32 input_y
     width := u32ToI32 input_width
     height := u32ToI32 input_height })

/-- Embedding of StubEngine::build_hit_test_map. -/
def StubEngine.build_hit_test_map (s : StubEngine) : HitTestMap :=
  let br := s.control_regions
  { width := s.viewport_width
    height := s.viewport_height
    regions :=
      [ { node_id := BUTTON_NODE_ID, bounds := some br.1 },
        { node_id := INPUT_NODE_ID, bounds := some br.2 },
        { node_id := ROOT_NODE_ID, bounds := some s.viewport_rect } ] }

/-- Wrapping i32 addition, for the rect-edge sums in point_in_rect. -/
def i32WrapAdd (a b : Int) : Int :=
  (a + b + 2 ^ 31) % 2 ^ 32 - 2 ^ 31

/-- Embedding of point_in_rect (stub.rs). -/
def point_in_rect (point : PbPoint) (rect : PbRect) : Bool :=
  point.x ≥ rect.x ∧ point.y ≥ rect.y ∧
  point.x < i32WrapAdd rect.x rect.width ∧
  point.y < i32WrapAdd rect.y rect.height

/-- Embedding of StubEngine::hit_test_node_id. -/
def StubEngine.hit_test_node_id (s : StubEngine) (point : PbPoint) : Nat :=
  let br := s.control_regions
  if point_in_rect point br.1 then BUTTON_NODE_ID
  else if point_in_rect point br.2 then INPUT_NODE_ID
  else ROOT_NODE_ID

/-- Embedding of StubEngine::resolve_target. -/
def StubEngine.resolve_target (s : StubEngine) (target : Option ActionTarget) :
    Nat × Option PbPoint :=
  let fallback : Nat × Option PbPoint :=
    (if s.focused_node ≠ 0 then s.focused_node else ROOT_NODE_ID, none)
  match target with
  | some t =>
    if t.node_id ≠ 0 then (t.node_id, none)
    else
      match t.point with
      | some p => (s.hit_test_node_id p, some p)
      | none => fallback
  | none => fallback

/-- Embedding of StubEngine::ensure_clipboard_read_allowed. -/
def StubEngine.ensure_clipboard_read_allowed (s : StubEngine) :
    Except EngineError Unit :=
  if ¬ s.clipboard_allow_read then
    .error ⟨"clipboard_denied", "clipboard read not allowed"⟩
  else if s.clipboard_read_allowlist = [] then .ok ()
  else
    match urlParse s.url with
    | none => .error ⟨"clipboard_denied", "clipboard read requires allowed domain"⟩
    | some parsed =>
      match parsed.host with
      | none => .error ⟨"clipboard_denied", "clipboard read requires allowed domain"⟩
      | some host =>
        if allowlist_allows host (portOrKnownDefault parsed) s.clipboard_read_allowlist
        then .ok ()
        else .error ⟨"clipboard_denied", "clipboard read denied by allowlist"⟩

/-- Embedding of StubEngine::ensure_clipboard_write_allowed. -/
def StubEngine.ensure_clipboard_write_allowed (s : StubEngine) :
    Except EngineError Unit :=
  if ¬ s.clipboard_allow_write then
    .error ⟨"clipboard_denied", "clipboard write not allowed"⟩
  else .ok ()

/-- Embedding of StubEngine::build_observation. -/
def StubEngine.build_observation (s : StubEngine) (include_dom : Bool)
    (include_accessibility : Bool) (include_frame : Bool)
    (include_hit_test : Bool) : Observation :=
  { state_version := s.state_version
    url := s.url
    title := s.title
    frame := if include_frame then some s.build_frame else none
    dom_snapshot := if include_dom then s.dom_snapshot_json else []
    accessibility_tree := if include_accessibility then s.accessibility_snapshot_json else []
    hit_test := if include_hit_test then some s.build_hit_test_map else none }

/-- Embedding of action_type_label (stub.rs). -/
def action_type_label : ActionType → Str
  | .click => "click".data
  | .typeText => "type".data
  | .scroll => "scroll".data
  | .hover => "hover".data
  | .key => "key".data
  | .focus => "focus".data
  | .clipboardRead => "clipboard_read".data
  | .clipboardWrite => "clipboard_write".data
  | .unspecified => "unspecified".data

/-- Embedding of scroll_unit_label (stub.rs); the source decodes the i32
with try_from(..).unwrap_or(Unspecified), here the decoded unit arrives
directly. -/
def scroll_unit_label : ScrollUnit → Str
  | .pixels => "pixels".data
  | .lines => "lines".data
  | .unspecified => "units".data

/-- Embedding of action_point_summary (stub.rs). -/
def action_point_summary (action : Str) (node_id : Nat)
    (point : Option PbPoint) : Str :=
  match point with
  | some p =>
    action ++ " node ".data ++ natToStr node_id ++ " at ".data
    ++ intToStr p.x ++ ",".data ++ intToStr p.y
  | none => action ++ " node ".data ++ natToStr node_id

/-- Embedding of clipboard_mode_label (stub.rs). -/
def clipboard_mode_label : ClipboardMode → Str
  | .virtualMode => "virtual".data
  | .hostMode => "host".data
  | .unspecified => "virtual".data

/-- Embedding of clipboard_metadata (stub.rs): the prost Struct carrying
bytes, mode, source and optionally the text. -/
def clipboard_metadata (text : Option Str) (bytes : Nat) (mode : Str)
    (source : Str) : Option ClipboardMeta :=
  some { text := text, bytes := bytes, mode := mode, source := source }

/-- Embedding of StubEngine::navigate.  The &mut self receiver becomes
explicit state passing: the second component is the engine state after the
call (unchanged when the call fails). -/
def StubEngine.navigate (s : StubEngine) (url : Str) :
    Except EngineError Observation × StubEngine :=
  if trimStr url = [] then
    (.error ⟨"invalid_request", "url is required"⟩, s)
  else
    let s1 :=
      { s with
        url := url
        title := "Stub Page".data
        last_action := "navigate".data
        last_action_detail := "navigate to ".data ++ url
        scroll_x := 0
        scroll_y := 0 }
    let s2 := s1.bump_state
    (.ok (s2.build_observation true true false false), s2)

/-- Embedding of StubEngine::observe (reads state, never mutates). -/
def StubEngine.observe (s : StubEngine) (opts : ObserveOptions) :
    Except EngineError Observation × StubEngine :=
  (.ok (s.build_observation opts.include_dom_snapshot opts.include_accessibility
        opts.include_frame opts.include_hit_test), s)

/-- Embedding of StubEngine::act.  The action branches are translated
case by case from the source match; every error return occurs before any
field of self has been assigned, which the explicit state threading makes
visible: each error outcome is paired with the unchanged input state. -/
def StubEngine.act (s : StubEngine) (action : PbAction) :
    Except EngineError ActionResult × StubEngine :=
  let action_type := action.ty
  if action_type = ActionType.unspecified then
    (.error ⟨"invalid_request", "unsupported action type"⟩, s)
  else
    let resolved := s.resolve_target action.target
    let target_node :=
      if action_type = ActionType.typeText ∧ resolved.1 = ROOT_NODE_ID then
        INPUT_NODE_ID
      else resolved.1
    let target_point := resolved.2
    let step : Except EngineError (StubEngine × Str × Option ClipboardMeta) :=
      match action_type with
      | .click =>
        .ok ({ s with focused_node := target_node, hovered_node := target_node },
             action_point_summary "clicked".data target_node target_point, none)
      | .typeText =>
        .ok ({ s with focused_node := target_node, last_text_len := action.text.length },
             "typed ".data ++ natToStr action.text.length
             ++ " chars into node ".data ++ natToStr target_node, none)
      | .scroll =>
        match action.scroll with
        | some sc =>
          .ok ({ s with
                 scroll_x := i32SatAdd s.scroll_x sc.x
                 scroll_y := i32SatAdd s.scroll_y sc.y },
               "scrolled ".data ++ intToStr sc.y ++ " ".data
               ++ scroll_unit_label sc.unit, none)
        | none => .ok (s, "scrolled".data, none)
      | .hover =>
        .ok ({ s with hovered_node := target_node },
             action_point_summary "hovered".data target_node target_point, none)
      | .key =>
        let s1 := { s with last_key := action.key }
        if s1.last_key = [] then .ok (s1, "pressed key".data, none)
        else .ok (s1, "pressed key ".data ++ s1.last_key, none)
      | .focus =>
        .ok ({ s with focused_node := target_node },
             "focused node ".data ++ natToStr target_node, none)
      | .clipboardRead =>
        match s.ensure_clipboard_read_allowed with
        | .error e => .error e
        | .ok _ =>
          let bytes := utf8Len s.clipboard_text
          if bytes > s.clipboard_max_bytes then
            .error ⟨"clipboard_limit", "clipboard exceeds size limit"⟩
          else
            .ok (s, "clipboard read ".data ++ natToStr bytes ++ " bytes".data,
                 clipboard_metadata (some s.clipboard_text) bytes
                   (clipboard_mode_label s.clipboard_mode) "virtual".data)
      | .clipboardWrite =>
        match s.ensure_clipboard_write_allowed with
        | .error e => .error e
        | .ok _ =>
          let bytes := utf8Len action.text
          if bytes > s.clipboard_max_bytes then
            .error ⟨"clipboard_limit", "clipboard exceeds size limit"⟩
          else
            .ok ({ s with
                   clipboard_text := action.text
                   last_text_len := action.text.length },
                 "clipboard wrote ".data ++ natToStr bytes ++ " bytes".data,
                 clipboard_metadata none bytes
                   (clipboard_mode_label s.clipboard_mode) "virtual".data)
      | .unspecified => .ok (s, [], none)
    match step with
    | .error e => (.error e, s)
    | .ok (s1, summary, metadata) =>
      let s2 :=
        { s1 with
          last_action := action_type_label action_type
          last_action_detail := summary }
      let s3 := s2.bump_state
      (.ok
        { state_version := s3.state_version
          observation := some (s3.build_observation true true false false)
          effects :=
            [{ kind := action_type_label action_type
               summary := summary
               metadata := metadata }] }, s3)

/-- Embedding of StubEngine::build_stream_event. -/
def StubEngine.build_stream_event (s : StubEngine) (event_type : StreamEventType) :
    StreamEvent :=
  let base : StreamEvent :=
    { ty := event_type
      state_version := s.state_version
      frame := none
      dom_diff := []
      accessibility_diff := []
      hit_test := none }
  match event_type with
  | .frame => { base with frame := some s.build_frame }
  | .domDiff => { base with dom_diff := s.dom_diff_json }
  | .accessibilityDiff => { base with accessibility_diff := s.accessibility_diff_json }
  | .hitTest => { base with hit_test := some s.build_hit_test_map }
  | .unspecified => base

/-- Embedding of StubEngine::stream_event (never fails, never mutates). -/
def StubEngine.stream_event (s : StubEngine) (event_type : StreamEventType) :
    Except EngineError StreamEvent × StubEngine :=
  (.ok (s.build_stream_event event_type), s)

/-!
Dispatcher pieces, from apps/browserd/src/main.rs.
-/

/-- Embedding of normalize_stream_options (main.rs). -/
def normalize_stream_options (options : Option StreamOptions) (default_fps : Nat) :
    StreamSettings :=
  let settings : StreamSettings :=
    { include_frames := false
      include_dom_diffs := false
      include_accessibility_diffs := false
      include_hit_test := false
      target_fps := default_fps }
  let settings :=
    match options with
    | some opts =>
      { include_frames := opts.include_frames
        include_dom_diffs := opts.include_dom_diffs
        include_accessibility_diffs := opts.include_accessibility_diffs
        include_hit_test := opts.include_hit_test
        target_fps := if opts.target_fps > 0 then opts.target_fps else settings.target_fps }
    | none => settings
  let settings :=
    if ¬ (settings.include_frames || settings.include_dom_diffs ||
          settings.include_accessibility_diffs || settings.include_hit_test) then
      { settings with include_frames := true }
    else settings
  if settings.target_fps = 0 then { settings with target_fps := DEFAULT_FRAME_RATE }
  else settings

/-- Embedding of the Act branch of handle_request (main.rs): the closure
run under with_session checks the optimistic-concurrency guard against the
engine's current state_version and only then invokes act. -/
def handle_act (s : StubEngine) (action : PbAction) :
    Except EngineError ActionResult × StubEngine :=
  if action.expected_state_version ≠ 0 ∧
     action.expected_state_version ≠ s.state_version then
    (.error ⟨"stale_state", "stale state version"⟩, s)
  else s.act action

/-- All-zero engine record, used as the default branch of extractors. -/
def stubZero : StubEngine :=
  { url := [], title := [], state_version := 0, viewport_width := 0,
    viewport_height := 0, frame_rate := 0, last_action := [],
    last_action_detail := [], last_text_len := 0, last_key := [],
    scroll_x := 0, scroll_y := 0, focused_node := 0, hovered_node := 0,
    clipboard_mode := .unspecified, clipboard_allow_read := false,
    clipboard_allow_write := false, clipboard_max_bytes := 0,
    clipboard_read_allowlist := [], clipboard_text := [] }

/-- Engine produced by StubEngine.new, with stubZero for the error case. -/
def newD (cfg : SessionConfig) : StubEngine :=
  match StubEngine.new cfg with
  | .ok e => e
  | .error _ => stubZero

/-- Minimal session configuration used by the concrete witnesses. -/
def cfgDefault : SessionConfig :=
  { session_id := "s1".data, initial_url := [], viewport := none,
    frame_rate := 0, network_allowlist := [], clipboard := none }

/-- Freshly created engine for the witnesses. -/
def engine0 : StubEngine := newD cfgDefault

/-- Type action with empty text. -/
def aTypeEmpty : PbAction :=
  { ty := .typeText, expected_state_version := 0, target := none,
    text := [], key := [], scroll := none }

/-- Clipboard-read action (denied under the default policy). -/
def aRead : PbAction :=
  { ty := .clipboardRead, expected_state_version := 0, target := none,
    text := [], key := [], scroll := none }

/-- Click action carrying a stale expected_state_version. -/
def aStale : PbAction :=
  { ty := .click, expected_state_version := 99, target := none,
    text := [], key := [], scroll := none }

/-- Click action with the optimistic check disabled. -/
def aClick0 : PbAction :=
  { ty := .click, expected_state_version := 0, target := none,
    text := [], key := [], scroll := none }

/-- Engine state sitting at the largest representable u64 state_version. -/
def engineAtMax : StubEngine := { engine0 with state_version := U64_MAX }

/-- Stream options with every include flag off and zero fps. -/
def oAllFalse : StreamOptions :=
  { include_frames := false, include_dom_diffs := false,
    include_accessibility_diffs := false, include_hit_test := false,
    target_fps := 0 }

/-- Session configuration whose viewport width 2^31 is accepted at
creation (the source only requires width > 0). -/
def cfgHuge : SessionConfig :=
  { session_id := "s1".data, initial_url := [], viewport := some ⟨2 ^ 31, 720⟩,
    frame_rate := 0, network_allowlist := [], clipboard := none }

/-- Hostname shape the canonical allowlist forms are stated over:
non-empty, ASCII lowercase letters, digits, dots and hyphens. -/
def simpleHostChar (c : Char) : Bool :=
  (97 ≤ c.toNat && c.toNat ≤ 122) || (48 ≤ c.toNat && c.toNat ≤ 57) ||
  c = '.' || c = '-'

/-- Non-empty string of simple host characters. -/
def simpleHost (l : Str) : Bool := !l.isEmpty && l.all simpleHostChar

/-- Shape lemma for act: every error outcome leaves the state untouched,
and every success applies exactly one saturating state bump to a state
agreeing with the input on state_version and viewport dimensions. -/
theorem act_shape (s : StubEngine) (a : PbAction) :
    ((s.act a).1.isOk = false ∧ (s.act a).2 = s) ∨
    ((s.act a).1.isOk = true ∧
     (s.act a).2.state_version = u64SatSucc s.state_version ∧
     (s.act a).2.viewport_width = s.viewport_width ∧
     (s.act a).2.viewport_height = s.viewport_height) := by
  unfold StubEngine.act
  rcases hty : a.ty
  case click =>
    right; simp [Except.isOk, Except.toBool, hty, StubEngine.bump_state]
  case typeText =>
    right; simp [Except.isOk, Except.toBool, hty, StubEngine.bump_state]
  case scroll =>
    rcases hscr : a.scroll with _ | sc
    · right; simp [Except.isOk, Except.toBool, hty, hscr, StubEngine.bump_state]
    · right; simp [Except.isOk, Except.toBool, hty, hscr, StubEngine.bump_state]
  case hover =>
    right; simp [Except.isOk, Except.toBool, hty, StubEngine.bump_state]
  case key =>
    by_cases hk : a.key = []
    · right; simp [Except.isOk, Except.toBool, hty, hk, StubEngine.bump_state]
    · right; simp [Except.isOk, Except.toBool, hty, hk, StubEngine.bump_state]
  case focus =>
    right; simp [Except.isOk, Except.toBool, hty, StubEngine.bump_state]
  case clipboardRead =>
    rcases hr : s.ensure_clipboard_read_allowed with e | u
    · left; simp [Except.isOk, Except.toBool, hty, hr]
    · by_cases hb : utf8Len s.clipboard_text > s.clipboard_max_bytes
      · left; simp [Except.isOk, Except.toBool, hty, hr, hb]
      · right; simp [Except.isOk, Except.toBool, hty, hr, hb, StubEngine.bump_state]
  case clipboardWrite =>
    rcases hw : s.ensure_clipboard_write_allowed with e | u
    · left; simp [Except.isOk, Except.toBool, hty, hw]
    · by_cases hb : utf8Len a.text > s.clipboard_max_bytes
      · left; simp [Except.isOk, Except.toBool, hty, hw, hb]
      · right; simp [Except.isOk, Except.toBool, hty, hw, hb, StubEngine.bump_state]
  case unspecified =>
    left; simp [Except.isOk, Except.toBool, hty]

/-- Shape lemma for navigate: failure (blank URL) leaves the state
untouched; success applies exactly one saturating bump and preserves the
viewport. -/
theorem navigate_shape (s : StubEngine) (url : Str) :
    ((s.navigate url).1.isOk = false ∧ (s.navigate url).2 = s) ∨
    ((s.navigate url).1.isOk = true ∧
     (s.navigate url).2.state_version = u64SatSucc s.state_version ∧
     (s.navigate url).2.viewport_width = s.viewport_width ∧
     (s.navigate url).2.viewport_height = s.viewport_height) := by
  unfold StubEngine.navigate
  by_cases h : trimStr url = []
  · left; simp [Except.isOk, Except.toBool, h]
  · right; simp [Except.isOk, Except.toBool, h, StubEngine.bump_state]

/-- C1 counterexample: at state_version u64::MAX a navigate call still
succeeds, yet the version stays at u64::MAX instead of increasing by one,
because bump_state uses saturating_add. -/
theorem navigate_increment_overflow_cex :
    (engineAtMax.navigate "about:blank".data).1.isOk = true ∧
    (engineAtMax.navigate "about:blank".data).2.state_version = U64_MAX ∧
    (engineAtMax.navigate "about:blank".data).2.state_version ≠
      engineAtMax.state_version + 1 := by
  refine ⟨rfl, rfl, ?_⟩
  decide

/-- C1 (amended): state_version never decreases, and every successful
navigate or act sets it to min(old + 1, u64::MAX): an exact increment of
one whenever the prior version is below u64::MAX, saturation at the top. -/
theorem state_version_bump_saturating (s : StubEngine) (url : Str) (a : PbAction)
    (hs : s.state_version ≤ U64_MAX) :
    ((s.navigate url).1.isOk = true →
       (s.navigate url).2.state_version = min (s.state_version + 1) U64_MAX)
  ∧ ((s.act a).1.isOk = true →
       (s.act a).2.state_version = min (s.state_version + 1) U64_MAX)
  ∧ s.state_version ≤ (s.navigate url).2.state_version
  ∧ s.state_version ≤ (s.act a).2.state_version := by
  refine ⟨?_, ?_, ?_, ?_⟩
  · intro h
    rcases navigate_shape s url with ⟨h1, _⟩ | ⟨_, h2, _⟩
    · rw [h] at h1; cases h1
    · rw [h2]; rfl
  · intro h
    rcases act_shape s a with ⟨h1, _⟩ | ⟨_, h2, _⟩
    · rw [h] at h1; cases h1
    · rw [h2]; rfl
  · rcases navigate_shape s url with ⟨_, h2⟩ | ⟨_, h2, _⟩
    · rw [h2]
    · rw [h2]; unfold u64SatSucc U64_MAX at *; omega
  · rcases act_shape s a with ⟨_, h2⟩ | ⟨_, h2, _⟩
    · rw [h2]
    · rw [h2]; unfold u64SatSucc U64_MAX at *; omega

/-- C1 witness: the saturating-bump law applied to a fresh engine. -/
theorem state_version_bump_saturating_witness :
    (engine0.navigate "https://example.com/".data).1.isOk = true ∧
    (engine0.navigate "https://example.com/".data).2.state_version =
      min (engine0.state_version + 1) U64_MAX :=
  ⟨rfl, (state_version_bump_saturating engine0 "https://example.com/".data
          aClick0 (by decide)).1 rfl⟩

/-- C2: evaluating act at the failing input.  A Type action with empty
text is accepted by the stub engine (no invalid_request error), recording
last_text_len = 0; the spec and the servo adapter both require
invalid_request here, so the stub omits the required check. -/
theorem type_empty_text_accepted_cex :
    aTypeEmpty.text = [] ∧
    (engine0.act aTypeEmpty).1.isOk = true ∧
    (engine0.act aTypeEmpty).2.last_text_len = 0 :=
  ⟨rfl, rfl, rfl⟩

/-- Characterization of the stub's actual Type handling: a Type action
always succeeds, whatever its text; the focused node becomes the resolved
target (with the textbox substituted when resolution produced the root)
and last_text_len becomes the character count of the text, zero
included. -/
theorem type_action_behavior (s : StubEngine) (a : PbAction)
    (h : a.ty = ActionType.typeText) :
    (s.act a).1.isOk = true ∧
    (s.act a).2.focused_node =
      (if (s.resolve_target a.target).1 = ROOT_NODE_ID then INPUT_NODE_ID
       else (s.resolve_target a.target).1) ∧
    (s.act a).2.last_text_len = a.text.length := by
  unfold StubEngine.act
  simp [Except.isOk, Except.toBool, h, StubEngine.bump_state]

/-- Instance of the Type characterization at a concrete engine. -/
theorem type_action_behavior_witness :
    (engine0.act aTypeEmpty).1.isOk = true ∧
    (engine0.act aTypeEmpty).2.focused_node =
      (if (engine0.resolve_target aTypeEmpty.target).1 = ROOT_NODE_ID then INPUT_NODE_ID
       else (engine0.resolve_target aTypeEmpty.target).1) ∧
    (engine0.act aTypeEmpty).2.last_text_len = aTypeEmpty.text.length :=
  type_action_behavior engine0 aTypeEmpty rfl

/-- C3: the Act branch of handle_request fails with stale_state, without
invoking the engine's act, whenever the action's expected_state_version is
neither zero nor the current state_version; expected_state_version zero
bypasses the check and the call is exactly act. -/
theorem act_optimistic_concurrency (s : StubEngine) (a : PbAction) :
    (a.expected_state_version ≠ 0 → a.expected_state_version ≠ s.state_version →
       handle_act s a = (.error ⟨"stale_state", "stale state version"⟩, s))
  ∧ (a.expected_state_version = 0 → handle_act s a = s.act a) := by
  constructor
  · intro h1 h2
    simp [handle_act, h1, h2]
  · intro h1
    simp [handle_act, h1]

/-- C3 witness: stale expected version 99 against a fresh engine at
version 1, and the bypass at expected version 0. -/
theorem act_optimistic_concurrency_witness :
    handle_act engine0 aStale = (.error ⟨"stale_state", "stale state version"⟩, engine0)
  ∧ handle_act engine0 aClick0 = engine0.act aClick0 :=
  ⟨(act_optimistic_concurrency engine0 aStale).1 (by decide) (by decide),
   (act_optimistic_concurrency engine0 aClick0).2 rfl⟩

/-- C8: whenever act returns an error (invalid_request, clipboard_denied
or clipboard_limit), the engine state is exactly the state before the
call: every error return in the source happens before any field of self
is assigned. -/
theorem act_error_state_unchanged (s : StubEngine) (a : PbAction) (e : EngineError)
    (h : (s.act a).1 = .error e) : (s.act a).2 = s := by
  rcases act_shape s a with ⟨_, h2⟩ | ⟨h1, _⟩
  · exact h2
  · rw [h] at h1
    simp [Except.isOk, Except.toBool] at h1

/-- C8 witness: the default policy denies clipboard reads and the engine
state survives the failed action unchanged. -/
theorem act_error_state_unchanged_witness :
    (engine0.act aRead).2 = engine0 :=
  act_error_state_unchanged engine0 aRead
    ⟨"clipboard_denied", "clipboard read not allowed"⟩ rfl

/-- C9: without a clipboard block the engine defaults to allow_read =
false, allow_write = true, max_bytes = 65536 and virtual mode with an
empty read allowlist; a clipboard block carrying max_bytes = 0 keeps the
65536-byte default. -/
theorem clipboard_policy_defaults (cfg : SessionConfig)
    (h : trimStr cfg.session_id ≠ []) :
    (cfg.clipboard = none →
       (StubEngine.new cfg).isOk = true ∧
       (newD cfg).clipboard_allow_read = false ∧
       (newD cfg).clipboard_allow_write = true ∧
       (newD cfg).clipboard_max_bytes = 65536 ∧
       (newD cfg).clipboard_mode = ClipboardMode.virtualMode ∧
       (newD cfg).clipboard_read_allowlist = [])
  ∧ (∀ p : ClipboardPolicy, cfg.clipboard = some p → p.max_bytes = 0 →
       (StubEngine.new cfg).isOk = true ∧
       (newD cfg).clipboard_max_bytes = 65536) := by
  constructor
  · intro hc
    simp [StubEngine.new, newD, Except.isOk, Except.toBool, h, hc,
          DEFAULT_CLIPBOARD_MAX_BYTES]
  · intro p hc hm
    simp [StubEngine.new, newD, Except.isOk, Except.toBool, h, hc, hm,
          DEFAULT_CLIPBOARD_MAX_BYTES]

/-- C9 witness: the defaults on the fixture configuration. -/
theorem clipboard_policy_defaults_witness :
    (StubEngine.new cfgDefault).isOk = true ∧
    (newD cfgDefault).clipboard_allow_read = false ∧
    (newD cfgDefault).clipboard_allow_write = true ∧
    (newD cfgDefault).clipboard_max_bytes = 65536 ∧
    (newD cfgDefault).clipboard_mode = ClipboardMode.virtualMode ∧
    (newD cfgDefault).clipboard_read_allowlist = [] :=
  (clipboard_policy_defaults cfgDefault (by decide)).1 rfl

/-- C10: a fresh engine starts focused on the textbox (node 3) with no
hovered node, so target resolution for an action carrying neither node_id
nor point yields the textbox, not the root. -/
theorem fresh_engine_focus_textbox (cfg : SessionConfig)
    (h : trimStr cfg.session_id ≠ []) :
    (StubEngine.new cfg).isOk = true ∧
    (newD cfg).focused_node = 3 ∧
    (newD cfg).hovered_node = 0 ∧
    (newD cfg).resolve_target none = (3, none) ∧
    (∀ t : ActionTarget, t.node_id = 0 → t.point = none →
       (newD cfg).resolve_target (some t) = (3, none)) := by
  have hf : (newD cfg).focused_node = 3 ∧ (newD cfg).hovered_node = 0 ∧
      (StubEngine.new cfg).isOk = true := by
    simp [StubEngine.new, newD, Except.isOk, Except.toBool, h, INPUT_NODE_ID]
  refine ⟨hf.2.2, hf.1, hf.2.1, ?_, ?_⟩
  · simp [StubEngine.resolve_target, hf.1]
  · intro t h1 h2
    simp [StubEngine.resolve_target, hf.1, h1, h2]

/-- C10 witness: resolution on the fixture engine. -/
theorem fresh_engine_focus_textbox_witness :
    (StubEngine.new cfgDefault).isOk = true ∧
    (newD cfgDefault).focused_node = 3 ∧
    (newD cfgDefault).hovered_node = 0 ∧
    (newD cfgDefault).resolve_target none = (3, none) ∧
    (∀ t : ActionTarget, t.node_id = 0 → t.point = none →
       (newD cfgDefault).resolve_target (some t) = (3, none)) :=
  fresh_engine_focus_textbox cfgDefault (by decide)

/-- C7: when all four include flags are false (or no options were sent),
the normalized settings enable frames; the normalized target_fps is the
request's target_fps when positive, else the engine's frame rate, else
12. -/
theorem normalize_stream_options_spec (options : Option StreamOptions)
    (default_fps : Nat) :
    ((options.elim True (fun o =>
        o.include_frames = false ∧ o.include_dom_diffs = false ∧
        o.include_accessibility_diffs = false ∧ o.include_hit_test = false)) →
      (normalize_stream_options options default_fps).include_frames = true)
  ∧ (normalize_stream_options options default_fps).target_fps =
      (if 0 < (options.elim 0 StreamOptions.target_fps) then
         options.elim 0 StreamOptions.target_fps
       else if 0 < default_fps then default_fps else 12) := by
  constructor
  · intro h
    rcases options with _ | o
    · simp only [normalize_stream_options]
      split <;> (try split) <;> first | rfl | simp_all
    · simp only [Option.elim] at h
      simp only [normalize_stream_options, h.1, h.2.1, h.2.2.1, h.2.2.2]
      split <;> (try split) <;> (try split) <;> first | rfl | simp_all
  · rcases options with _ | o
    · by_cases hd : default_fps = 0
      · simp only [normalize_stream_options, Option.elim, hd]
        split <;> simp [DEFAULT_FRAME_RATE]
      · simp only [normalize_stream_options, Option.elim]
        split <;> simp [DEFAULT_FRAME_RATE, hd, Nat.pos_of_ne_zero hd]
    · by_cases hf : o.target_fps = 0
      · by_cases hd : default_fps = 0
        · simp only [normalize_stream_options, Option.elim, hf, hd]
          split <;> simp [DEFAULT_FRAME_RATE, hf, hd]
        · simp only [normalize_stream_options, Option.elim, hf]
          split <;> simp [DEFAULT_FRAME_RATE, hf, hd, Nat.pos_of_ne_zero hd]
      · simp only [normalize_stream_options, Option.elim, hf]
        split <;> simp [DEFAULT_FRAME_RATE, hf, Nat.pos_of_ne_zero hf]

/-- C7 witness: all-false includes with zero request and engine fps. -/
theorem normalize_stream_options_spec_witness :
    (normalize_stream_options (some oAllFalse) 0).include_frames = true ∧
    (normalize_stream_options (some oAllFalse) 0).target_fps =
      (if 0 < ((some oAllFalse).elim 0 StreamOptions.target_fps) then
         (some oAllFalse).elim 0 StreamOptions.target_fps
       else if 0 < (0:Nat) then 0 else 12) :=
  ⟨(normalize_stream_options_spec (some oAllFalse) 0).1 ⟨rfl, rfl, rfl, rfl⟩,
   (normalize_stream_options_spec (some oAllFalse) 0).2⟩

/-- C4: validate_url accepts every URL parsing with scheme about and
rejects every URL parsing with lowercased scheme file, data or javascript,
independently of the allowlist. -/
theorem validate_url_scheme_policy (url : Str) (allowlist : List Str)
    (p : ParsedUrl) (hp : urlParse url = some p) :
    (lowerStr p.scheme = "about".data → validate_url url allowlist = .ok ())
  ∧ ((lowerStr p.scheme = "file".data ∨ lowerStr p.scheme = "data".data ∨
      lowerStr p.scheme = "javascript".data) →
      validate_url url allowlist =
        .error ("blocked scheme: ".data ++ lowerStr p.scheme)) := by
  constructor
  · intro h
    unfold validate_url
    rw [hp]
    unfold validateUrlParsed
    dsimp only
    rw [h, if_neg (by decide), if_pos rfl]
  · intro h
    unfold validate_url
    rw [hp]
    unfold validateUrlParsed
    dsimp only
    rw [if_pos h]

/-- C4 witness: an about URL against a non-empty allowlist and a
javascript URL against the empty allowlist. -/
theorem validate_url_scheme_policy_witness :
    validate_url "about:blank".data ["deny.example".data] = .ok () ∧
    validate_url "javascript:alert(1)".data [] =
      .error ("blocked scheme: ".data ++ lowerStr "javascript".data) :=
  ⟨(validate_url_scheme_policy "about:blank".data ["deny.example".data]
      ⟨"about".data, none, none⟩ rfl).1 (by decide),
   (validate_url_scheme_policy "javascript:alert(1)".data []
      ⟨"javascript".data, none, none⟩ rfl).2 (Or.inr (Or.inr (by decide)))⟩

/-- C6 counterexample: with viewport width 2^31 the root hit-test region
has width -2^31 after the u32-to-i32 cast, so not every region satisfies
width > 0 and height > 0. -/
theorem hit_test_width_overflow_cex :
    (StubEngine.new cfgHuge).isOk = true ∧
    (newD cfgHuge).viewport_rect.width = -(2 ^ 31) ∧
    ((newD cfgHuge).build_hit_test_map.regions.all
      (fun r =>
        match r.bounds with
        | some b => decide (0 < b.width) && decide (0 < b.height)
        | none => false)) = false := by
  refine ⟨rfl, by decide, by decide⟩

/-- C6 (amended): every hit-test region has positive width and height for
every engine whose viewport dimensions lie between 1 and 2^31 - 1; session
creation yields such dimensions whenever the configured viewport
dimensions are at most 2^31 - 1 (absent or zero dimensions fall back to
the defaults), and navigate / act never change them.  Hit-test maps built
by observe with include_hit_test and by HitTest stream events are exactly
build_hit_test_map of the current state. -/
theorem hit_test_bounds_positive :
    (∀ s : StubEngine, 1 ≤ s.viewport_width → s.viewport_width ≤ 2 ^ 31 - 1 →
       1 ≤ s.viewport_height → s.viewport_height ≤ 2 ^ 31 - 1 →
       (∀ r ∈ s.build_hit_test_map.regions,
          ∃ b, r.bounds = some b ∧ 0 < b.width ∧ 0 < b.height) ∧
       (s.build_stream_event .hitTest).hit_test = some s.build_hit_test_map ∧
       (∀ opts : ObserveOptions, opts.include_hit_test = true →
          ((s.observe opts).1.map Observation.hit_test) = .ok (some s.build_hit_test_map)))
  ∧ (∀ cfg : SessionConfig, (StubEngine.new cfg).isOk = true →
       (∀ v : PbViewport, cfg.viewport = some v →
          v.width ≤ 2 ^ 31 - 1 ∧ v.height ≤ 2 ^ 31 - 1) →
       1 ≤ (newD cfg).viewport_width ∧ (newD cfg).viewport_width ≤ 2 ^ 31 - 1 ∧
       1 ≤ (newD cfg).viewport_height ∧ (newD cfg).viewport_height ≤ 2 ^ 31 - 1)
  ∧ (∀ (s : StubEngine) (url : Str),
       (s.navigate url).2.viewport_width = s.viewport_width ∧
       (s.navigate url).2.viewport_height = s.viewport_height)
  ∧ (∀ (s : StubEngine) (a : PbAction),
       (s.act a).2.viewport_width = s.viewport_width ∧
       (s.act a).2.viewport_height = s.viewport_height) := by
  refine ⟨?_, ?_, ?_, ?_⟩
  · intro s hw1 hw2 hh1 hh2
    have hdw3 : s.viewport_width / 3 ≤ s.viewport_width := Nat.div_le_self _ _
    have hdw2 : s.viewport_width / 2 ≤ s.viewport_width := Nat.div_le_self _ _
    have hdh6 : s.viewport_height / 6 ≤ s.viewport_height := Nat.div_le_self _ _
    have hdh8 : s.viewport_height / 8 ≤ s.viewport_height := Nat.div_le_self _ _
    refine ⟨?_, rfl, ?_⟩
    · intro r hr
      have hmax : max s.viewport_width 1 = s.viewport_width := by omega
      have hmaxh : max s.viewport_height 1 = s.viewport_height := by omega
      simp only [StubEngine.build_hit_test_map, StubEngine.control_regions,
                 StubEngine.viewport_rect, hmax, hmaxh, List.mem_cons,
                 List.mem_singleton, List.not_mem_nil, or_false] at hr
      rcases hr with h | h | h <;> subst h <;> refine ⟨_, rfl, ?_, ?_⟩ <;>
        dsimp only <;> unfold u32ToI32 <;> split <;> omega
    · intro opts h
      simp [StubEngine.observe, StubEngine.build_observation, h, Except.map]
  · intro cfg hok hv
    by_cases hs : trimStr cfg.session_id = []
    · simp [StubEngine.new, hs, Except.isOk, Except.toBool] at hok
    · rcases hcv : cfg.viewport with _ | v
      · simp [newD, StubEngine.new, hs, hcv, DEFAULT_VIEWPORT_WIDTH,
              DEFAULT_VIEWPORT_HEIGHT]
      · have hb := hv v hcv
        by_cases hw0 : v.width > 0 <;> by_cases hh0 : v.height > 0 <;>
          simp [newD, StubEngine.new, hs, hcv, hw0, hh0, DEFAULT_VIEWPORT_WIDTH,
                DEFAULT_VIEWPORT_HEIGHT] <;> omega
  · intro s url
    rcases navigate_shape s url with ⟨_, h2⟩ | ⟨_, _, h3, h4⟩
    · rw [h2]; exact ⟨rfl, rfl⟩
    · exact ⟨h3, h4⟩
  · intro s a
    rcases act_shape s a with ⟨_, h2⟩ | ⟨_, _, h3, h4⟩
    · rw [h2]; exact ⟨rfl, rfl⟩
    · exact ⟨h3, h4⟩

/-- C6 witness: positivity of the concrete button region of the fixture
engine (viewport 1280 x 720). -/
theorem hit_test_bounds_positive_witness :
    ∃ b, (({ node_id := BUTTON_NODE_ID,
             bounds := some (engine0.control_regions).1 } : HitRegion).bounds) = some b ∧
         0 < b.width ∧ 0 < b.height :=
  (hit_test_bounds_positive.1 engine0 (by decide) (by decide) (by decide)
    (by decide)).1
    { node_id := BUTTON_NODE_ID, bounds := some (engine0.control_regions).1 }
    (by decide)

/-!
String lemmas for the allowlist round-trip claims.
-/

theorem char_ne_of_toNat {c d : Char} (h : c.toNat ≠ d.toNat) : c ≠ d :=
  fun he => h (he ▸ rfl)

theorem simpleHostChar_toNat {c : Char} (h : simpleHostChar c = true) :
    (97 ≤ c.toNat ∧ c.toNat ≤ 122) ∨ (48 ≤ c.toNat ∧ c.toNat ≤ 57) ∨
    c.toNat = 46 ∨ c.toNat = 45 := by
  unfold simpleHostChar at h
  simp only [Bool.or_eq_true, Bool.and_eq_true, decide_eq_true_eq] at h
  rcases h with ((h | h) | h) | h
  · exact Or.inl h
  · exact Or.inr (Or.inl h)
  · exact Or.inr (Or.inr (Or.inl (by rw [h]; rfl)))
  · exact Or.inr (Or.inr (Or.inr (by rw [h]; rfl)))

theorem isAsciiDigit_toNat {c : Char} (h : isAsciiDigit c = true) :
    48 ≤ c.toNat ∧ c.toNat ≤ 57 := by
  unfold isAsciiDigit at h
  simp only [Bool.and_eq_true, decide_eq_true_eq] at h
  exact h

/-- Character facts shared by simple-host characters and digits, phrased
through the toNat ranges. -/
theorem hostRangeChar_props {c : Char}
    (h : (97 ≤ c.toNat ∧ c.toNat ≤ 122) ∨ (48 ≤ c.toNat ∧ c.toNat ≤ 57) ∨
         c.toNat = 46 ∨ c.toNat = 45) :
    asciiLower c = c ∧ isWsChar c = false ∧ c ≠ '*' ∧ c ≠ ':' ∧ c ≠ '/' ∧
    c ≠ ']' ∧ c ≠ '?' ∧ c ≠ '#' := by
  have h32 : (' ').toNat = 32 := by decide
  have h9 : ('\t').toNat = 9 := by decide
  have h10 : ('\n').toNat = 10 := by decide
  have h13 : ('\r').toNat = 13 := by decide
  have h42 : ('*').toNat = 42 := by decide
  have h58 : (':').toNat = 58 := by decide
  have h47 : ('/').toNat = 47 := by decide
  have h93 : (']').toNat = 93 := by decide
  have h63 : ('?').toNat = 63 := by decide
  have h35 : ('#').toNat = 35 := by decide
  refine ⟨?_, ?_, ?_, ?_, ?_, ?_, ?_, ?_⟩
  · unfold asciiLower
    rw [if_neg (by omega)]
  · unfold isWsChar
    have h1 : c ≠ ' ' := char_ne_of_toNat (by omega)
    have h2 : c ≠ '\t' := char_ne_of_toNat (by omega)
    have h3 : c ≠ '\n' := char_ne_of_toNat (by omega)
    have h4 : c ≠ '\r' := char_ne_of_toNat (by omega)
    simp [h1, h2, h3, h4]
  · exact char_ne_of_toNat (by omega)
  · exact char_ne_of_toNat (by omega)
  · exact char_ne_of_toNat (by omega)
  · exact char_ne_of_toNat (by omega)
  · exact char_ne_of_toNat (by omega)
  · exact char_ne_of_toNat (by omega)

theorem simpleHost_parts {l : Str} (h : simpleHost l = true) :
    l ≠ [] ∧ ∀ c ∈ l, simpleHostChar c = true := by
  unfold simpleHost at h
  simp only [Bool.and_eq_true, Bool.not_eq_true', List.all_eq_true] at h
  refine ⟨?_, h.2⟩
  intro he
  rw [he] at h
  simp at h

theorem dropWhile_eq_self_of {p : Char → Bool} :
    ∀ {l : Str}, (∀ c ∈ l, p c = false) → l.dropWhile p = l
  | [], _ => rfl
  | c :: t, h => by
    simp [List.dropWhile_cons, h c (List.mem_cons_self c t)]

theorem trimStr_eq_self {l : Str} (h : ∀ c ∈ l, isWsChar c = false) :
    trimStr l = l := by
  unfold trimStr
  rw [dropWhile_eq_self_of h,
      dropWhile_eq_self_of (fun c hc => h c (List.mem_reverse.mp hc)),
      List.reverse_reverse]

theorem lowerStr_eq_self {l : Str} (h : ∀ c ∈ l, asciiLower c = c) :
    lowerStr l = l := by
  unfold lowerStr
  rw [List.map_congr_left h]
  simp

theorem rsplitOnce_eq_none {c : Char} :
    ∀ {l : Str}, c ∉ l → rsplitOnce c l = none
  | [], _ => rfl
  | a :: t, h => by
    have ht : c ∉ t := fun hm => h (List.mem_cons_of_mem a hm)
    have ha : ¬ a = c := fun he => h (he ▸ List.mem_cons_self a t)
    simp [rsplitOnce, rsplitOnce_eq_none ht, ha]

theorem rsplitOnce_append {c : Char} :
    ∀ (pre post : Str), c ∉ pre → c ∉ post →
      rsplitOnce c (pre ++ c :: post) = some (pre, post)
  | [], post, _, hp => by
    simp [rsplitOnce, rsplitOnce_eq_none hp]
  | a :: t, post, hpre, hp => by
    have h1 : c ∉ t := fun hm => hpre (List.mem_cons_of_mem a hm)
    simp [rsplitOnce, rsplitOnce_append t post h1 hp]

theorem splitOnceChar_append {c : Char} :
    ∀ (pre post : Str), c ∉ pre →
      splitOnceChar c (pre ++ c :: post) = some (pre, post)
  | [], post, _ => by simp [splitOnceChar]
  | a :: t, post, hpre => by
    have h1 : c ∉ t := fun hm => hpre (List.mem_cons_of_mem a hm)
    have ha : ¬ a = c := fun he => hpre (he ▸ List.mem_cons_self a t)
    simp [splitOnceChar, ha, splitOnceChar_append t post h1]

theorem stripStar_eq_none {l : Str} (h : '*' ∉ l) : stripStar l = none := by
  match l with
  | [] => rfl
  | [c] => rfl
  | c1 :: c2 :: t =>
    have h1 : ¬ c1 = '*' := fun he => h (he ▸ List.mem_cons_self c1 (c2 :: t))
    simp [stripStar, h1]

theorem takeWhile_eq_self_of {p : Char → Bool} :
    ∀ {l : Str}, (∀ c ∈ l, p c = true) → l.takeWhile p = l
  | [], _ => rfl
  | c :: t, h => by
    simp [List.takeWhile_cons, h c (List.mem_cons_self c t),
          takeWhile_eq_self_of (fun x hx => h x (List.mem_cons_of_mem c hx))]

theorem isPrefixOf_append_self : ∀ (n suf : Str), n.isPrefixOf (n ++ suf) = true
  | [], _ => by simp [List.isPrefixOf]
  | c :: t, suf => by
    simp [List.isPrefixOf, isPrefixOf_append_self t suf]

theorem hasSubstr_append_self (n : Str) (hn : n ≠ []) :
    ∀ (pre suf : Str), hasSubstr n (pre ++ (n ++ suf)) = true
  | [], suf => by
    rcases n with _ | ⟨c, t⟩
    · exact absurd rfl hn
    · simp only [List.nil_append]
      show hasSubstr (c :: t) ((c :: t) ++ suf) = true
      simp [hasSubstr, isPrefixOf_append_self]
  | a :: pre, suf => by
    simp [hasSubstr, hasSubstr_append_self n hn pre suf]

theorem slashes_not_prefixOf {l : Str} (h : '/' ∉ l) :
    (['/', '/'] : Str).isPrefixOf l = false := by
  rcases l with _ | ⟨c, t⟩
  · simp [List.isPrefixOf]
  · have hc : ('/' : Char) ≠ c := fun he => h (by rw [he]; exact List.mem_cons_self c t)
    simp [List.isPrefixOf, hc]

theorem hasSubstr_slashes_false :
    ∀ {l : Str}, '/' ∉ l → hasSubstr "://".data l = false
  | [], _ => rfl
  | c :: t, h => by
    have ht : '/' ∉ t := fun hm => h (List.mem_cons_of_mem c hm)
    have hpre : ("://".data).isPrefixOf (c :: t) = false := by
      have he : "://".data = [':', '/', '/'] := rfl
      rw [he]
      rcases t with _ | ⟨b, t2⟩
      · simp [List.isPrefixOf]
      · have hb : ('/' : Char) ≠ b :=
          fun hbe => ht (by rw [hbe]; exact List.mem_cons_self b t2)
        simp [List.isPrefixOf, hb]
    simp [hasSubstr, hpre, hasSubstr_slashes_false ht]

theorem contains_eq_false_of {c : Char} {l : Str} (h : c ∉ l) :
    l.contains c = false := by
  cases he : l.elem c
  · exact he
  · exact absurd (List.mem_of_elem_eq_true he) h

theorem authorityKeep {c : Char} (h1 : c ≠ '/') (h2 : c ≠ '?') (h3 : c ≠ '#') :
    authorityEndChar c = false := by
  simp [authorityEndChar, h1, h2, h3]

/-- Facts every simple host enjoys: non-empty, fixed by trim and ASCII
lowercasing, free of the allowlist metacharacters, and free of
authority-terminating characters. -/
theorem simpleHost_props {l : Str} (h : simpleHost l = true) :
    l ≠ [] ∧ trimStr l = l ∧ lowerStr l = l ∧ ':' ∉ l ∧ '/' ∉ l ∧ ']' ∉ l ∧
    '*' ∉ l ∧ (∀ c ∈ l, authorityEndChar c = false) ∧
    (∀ c ∈ l, isWsChar c = false) := by
  obtain ⟨hne, hall⟩ := simpleHost_parts h
  have hp := fun c hc => hostRangeChar_props (simpleHostChar_toNat (hall c hc))
  refine ⟨hne, trimStr_eq_self (fun c hc => (hp c hc).2.1),
          lowerStr_eq_self (fun c hc => (hp c hc).1),
          fun hm => ((hp _ hm).2.2.2.1) rfl,
          fun hm => ((hp _ hm).2.2.2.2.1) rfl,
          fun hm => ((hp _ hm).2.2.2.2.2.1) rfl,
          fun hm => ((hp _ hm).2.2.1) rfl,
          fun c hc => authorityKeep ((hp c hc).2.2.2.2.1)
            ((hp c hc).2.2.2.2.2.2.1) ((hp c hc).2.2.2.2.2.2.2),
          fun c hc => (hp c hc).2.1⟩

/-- The same facts for strings of ASCII digits. -/
theorem digits_props {l : Str} (h : l.all isAsciiDigit = true) :
    trimStr l = l ∧ lowerStr l = l ∧ ':' ∉ l ∧ '/' ∉ l ∧ ']' ∉ l ∧ '*' ∉ l ∧
    (∀ c ∈ l, authorityEndChar c = false) ∧ (∀ c ∈ l, isWsChar c = false) := by
  have hall := List.all_eq_true.mp h
  have hp := fun c hc =>
    hostRangeChar_props (Or.inr (Or.inl (isAsciiDigit_toNat (hall c hc))))
  refine ⟨trimStr_eq_self (fun c hc => (hp c hc).2.1),
          lowerStr_eq_self (fun c hc => (hp c hc).1),
          fun hm => ((hp _ hm).2.2.2.1) rfl,
          fun hm => ((hp _ hm).2.2.2.2.1) rfl,
          fun hm => ((hp _ hm).2.2.2.2.2.1) rfl,
          fun hm => ((hp _ hm).2.2.1) rfl,
          fun c hc => authorityKeep ((hp c hc).2.2.2.2.1)
            ((hp c hc).2.2.2.2.2.2.1) ((hp c hc).2.2.2.2.2.2.2),
          fun c hc => (hp c hc).2.1⟩

theorem parse_entry_plain {l : Str} (hc : ':' ∉ l) (hs : '/' ∉ l) :
    parse_allowlist_entry l = (lowerStr l, none) := by
  simp [parse_allowlist_entry, hasSubstr_slashes_false hs, rsplitOnce_eq_none hc]

theorem parse_entry_hostport {h d : Str} (hh : simpleHost h = true)
    (hd : d.all isAsciiDigit = true) (hd1 : d ≠ []) (hlim : digitsVal d ≤ 65535) :
    parse_allowlist_entry (h ++ ':' :: d) = (h, some (digitsVal d)) := by
  obtain ⟨hne, _, hlower, hc, hs, hb, _, _, _⟩ := simpleHost_props hh
  obtain ⟨_, _, hcd, hsd, _, _, _, _⟩ := digits_props hd
  have hslash : '/' ∉ h ++ ':' :: d := by
    intro hm
    rcases List.mem_append.mp hm with hm | hm
    · exact hs hm
    · rcases List.mem_cons.mp hm with he | hm
      · exact absurd he (by decide)
      · exact hsd hm
  simp [parse_allowlist_entry, hasSubstr_slashes_false hslash,
        rsplitOnce_append h d hc hcd, hd, contains_eq_false_of hb, hb, parseU16,
        hd1, hlim, hlower]

theorem urlParse_https {h d : Str} (hh : simpleHost h = true)
    (hd : d.all isAsciiDigit = true) (hd1 : d ≠ []) (hlim : digitsVal d ≤ 65535) :
    urlParse ("https://".data ++ h ++ ':' :: d) =
      some ⟨"https".data, some (lowerStr h),
            if knownDefaultPort "https".data = some (digitsVal d) then none
            else some (digitsVal d)⟩ := by
  obtain ⟨hne, _, hlower, hc, hs, hb, _, hkeepH, _⟩ := simpleHost_props hh
  obtain ⟨_, _, hcd, hsd, _, _, hkeepD, _⟩ := digits_props hd
  have hsplit : splitOnceChar ':' ("https://".data ++ h ++ ':' :: d) =
      some ("https".data, '/' :: '/' :: (h ++ ':' :: d)) := by
    have he : "https://".data ++ h ++ ':' :: d =
        "https".data ++ ':' :: ('/' :: '/' :: (h ++ ':' :: d)) := rfl
    rw [he]
    exact splitOnceChar_append _ _ (by decide)
  have hkeep : ∀ c ∈ h ++ ':' :: d, authorityEndChar c = false := by
    intro c hcm
    rcases List.mem_append.mp hcm with hm | hm
    · exact hkeepH c hm
    · rcases List.mem_cons.mp hm with he | hm
      · rw [he]; decide
      · exact hkeepD c hm
  have htake : (h ++ ':' :: d).takeWhile (fun c => !authorityEndChar c) =
      h ++ ':' :: d :=
    takeWhile_eq_self_of (fun c hcm => by simp [hkeep c hcm])
  have hschemeAll : ("https".data).all schemeCharOk = true := by decide
  have hschemeNe : "https".data ≠ ([] : Str) := by decide
  have hlow : lowerStr "https".data = "https".data := rfl
  have hparse : parseU16 d = some (digitsVal d) := by simp [parseU16, hd1, hlim]
  unfold urlParse
  rw [hsplit]
  dsimp only
  rw [if_neg hschemeNe, if_neg (by simp [hschemeAll])]
  simp [htake, rsplitOnce_append h d hc hcd, contains_eq_false_of hb, hb, hne,
        hd1, hd, hparse, hlow]

theorem parse_entry_https {h d : Str} (hh : simpleHost h = true)
    (hd : d.all isAsciiDigit = true) (hd1 : d ≠ []) (hlim : digitsVal d ≤ 65535) :
    parse_allowlist_entry ("https://".data ++ h ++ ':' :: d) =
      (h, if knownDefaultPort "https".data = some (digitsVal d) then none
          else some (digitsVal d)) := by
  obtain ⟨_, _, hlower, _, _, _, _, _, _⟩ := simpleHost_props hh
  have hsub : hasSubstr "://".data ("https://".data ++ h ++ ':' :: d) = true := by
    have he : "https://".data ++ h ++ ':' :: d =
        "https".data ++ ("://".data ++ (h ++ ':' :: d)) := rfl
    rw [he]
    exact hasSubstr_append_self _ (by decide) _ _
  unfold parse_allowlist_entry
  rw [hsub, urlParse_https hh hd hd1 hlim]
  simp [hlower]

theorem allowlistLoop_entry (host : Str) (port : Nat) (e : Str)
    (htrim : trimStr e = e) (hne : e ≠ []) (hstar : stripStar e = none)
    (hhost : host ≠ [])
    (hp : (parse_allowlist_entry e).1 = host)
    (hport : (parse_allowlist_entry e).2 = none ∨
             (parse_allowlist_entry e).2 = some port) :
    allowlistLoop host (some port) [e] = true := by
  simp only [allowlistLoop]
  rw [htrim, if_neg hne, hstar]
  rcases hport with h2 | h2
  · simp [hp, hhost, h2]
  · simp [hp, hhost, h2]

/-- C5 counterexample: the wildcard entry *.example.com does not admit the
host notexample.com even though that host ends with the suffix
example.com, because the matcher requires equality with the suffix or a
dot boundary. -/
theorem allowlist_wildcard_suffix_cex :
    ("example.com".data).isSuffixOf "notexample.com".data = true ∧
    allowlist_allows "notexample.com".data (some 443)
      ["*.example.com".data] = false :=
  ⟨by decide, by decide⟩

/-- C5 (amended): for hosts made of ASCII lowercase letters, digits, dots
and hyphens, allowlist_allows accepts the canonical entry forms: the bare
host, host:port with matching port (any decimal rendering of the port),
https://host:port, and the wildcard *.suffix whenever the host equals the
suffix or ends with dot-suffix. -/
theorem allowlist_canonical_forms (host d suffix : Str) (port : Nat)
    (hh : simpleHost host = true) (hsfx : simpleHost suffix = true)
    (hd2 : d.all isAsciiDigit = true) (hd1 : d ≠ [])
    (hd3 : digitsVal d = port) (hp : port ≤ 65535) :
    allowlist_allows host (some port) [host] = true
  ∧ allowlist_allows host (some port) [host ++ ':' :: d] = true
  ∧ allowlist_allows host (some port)
      ["https://".data ++ host ++ ':' :: d] = true
  ∧ ((host = suffix ∨ ('.' :: suffix).isSuffixOf host = true) →
      allowlist_allows host (some port) ['*' :: '.' :: suffix] = true) := by
  obtain ⟨hne, htrim, hlower, hc, hsl, hb, hstar, _, hwsH⟩ := simpleHost_props hh
  obtain ⟨hneS, _, hlowerS, _, _, _, _, _, hwsS⟩ := simpleHost_props hsfx
  obtain ⟨htrimD, _, hcd, hsd, _, hstarD, _, hwsD⟩ := digits_props hd2
  have hlim : digitsVal d ≤ 65535 := by omega
  refine ⟨?_, ?_, ?_, ?_⟩
  · unfold allowlist_allows
    rw [hlower]
    refine allowlistLoop_entry host port host htrim hne
      (stripStar_eq_none hstar) hne ?_ (Or.inl ?_) <;>
      rw [parse_entry_plain hc hsl, hlower]
  · have hwsE : ∀ c ∈ host ++ ':' :: d, isWsChar c = false := by
      intro c hcm
      rcases List.mem_append.mp hcm with hm | hm
      · exact hwsH c hm
      · rcases List.mem_cons.mp hm with he | hm
        · rw [he]; decide
        · exact hwsD c hm
    have hstarE : '*' ∉ host ++ ':' :: d := by
      intro hm
      rcases List.mem_append.mp hm with hm | hm
      · exact hstar hm
      · rcases List.mem_cons.mp hm with he | hm
        · exact absurd he (by decide)
        · exact hstarD hm
    unfold allowlist_allows
    rw [hlower]
    refine allowlistLoop_entry host port _ (trimStr_eq_self hwsE) (by simp)
      (stripStar_eq_none hstarE) hne ?_ (Or.inr ?_)
    · rw [parse_entry_hostport hh hd2 hd1 hlim]
    · rw [parse_entry_hostport hh hd2 hd1 hlim, hd3]
  · have hwsE : ∀ c ∈ "https://".data ++ host ++ ':' :: d,
        isWsChar c = false := by
      intro c hcm
      rcases List.mem_append.mp hcm with hm | hm
      · rcases List.mem_append.mp hm with hm | hm
        · exact (by decide : ∀ x ∈ "https://".data, isWsChar x = false) c hm
        · exact hwsH c hm
      · rcases List.mem_cons.mp hm with he | hm
        · rw [he]; decide
        · exact hwsD c hm
    have hstarE : '*' ∉ "https://".data ++ host ++ ':' :: d := by
      intro hm
      rcases List.mem_append.mp hm with hm | hm
      · rcases List.mem_append.mp hm with hm | hm
        · exact absurd hm (by decide)
        · exact hstar hm
      · rcases List.mem_cons.mp hm with he | hm
        · exact absurd he (by decide)
        · exact hstarD hm
    unfold allowlist_allows
    rw [hlower]
    have hpe := parse_entry_https hh hd2 hd1 hlim
    by_cases hdef : knownDefaultPort "https".data = some (digitsVal d)
    · refine allowlistLoop_entry host port _ (trimStr_eq_self hwsE) (by simp)
        (stripStar_eq_none hstarE) hne ?_ (Or.inl ?_)
      · rw [hpe]
      · rw [hpe]
        simp only [if_pos hdef]
    · refine allowlistLoop_entry host port _ (trimStr_eq_self hwsE) (by simp)
        (stripStar_eq_none hstarE) hne ?_ (Or.inr ?_)
      · rw [hpe]
      · rw [hpe]
        simp only [if_neg hdef]
        rw [hd3]
  · intro hcond
    have hwsE : ∀ c ∈ '*' :: '.' :: suffix, isWsChar c = false := by
      intro c hcm
      rcases List.mem_cons.mp hcm with he | hm
      · rw [he]; decide
      · rcases List.mem_cons.mp hm with he | hm
        · rw [he]; decide
        · exact hwsS c hm
    unfold allowlist_allows
    rw [hlower]
    simp only [allowlistLoop]
    rw [trimStr_eq_self hwsE, if_neg (by simp)]
    have hstrip : stripStar ('*' :: '.' :: suffix) = some suffix := by
      simp [stripStar]
    rw [hstrip]
    dsimp only
    rw [hlowerS, if_pos hcond]

/-- C5 witness: the four canonical forms for example.com at port 8443
(wildcard instantiated with host equal to the suffix). -/
theorem allowlist_canonical_forms_witness :
    allowlist_allows "example.com".data (some 8443) ["example.com".data] = true
  ∧ allowlist_allows "example.com".data (some 8443)
      ["example.com".data ++ ':' :: "8443".data] = true
  ∧ allowlist_allows "example.com".data (some 8443)
      ["https://".data ++ "example.com".data ++ ':' :: "8443".data] = true
  ∧ allowlist_allows "example.com".data (some 8443)
      ['*' :: '.' :: "example.com".data] = true := by
  have h := allowlist_canonical_forms "example.com".data "8443".data
    "example.com".data 8443 (by decide) (by decide) (by decide) (by decide)
    (by decide) (by decide)
  exact ⟨h.1, h.2.1, h.2.2.1, h.2.2.2 (Or.inl rfl)⟩
